import Mathlib

/-!
Verification of the pynsot command layer (cmd_changes.py and cmd_interfaces.py).

The Python source is shallowly embedded: the static display-field tables become
Lean list constants, the parsed click option set of each command becomes a Lean
structure, and each command body becomes a pure Lean function from the parsed
options (and, where the body consumes an API response, from that response) to
the trace of API-client calls it performs together with any text echoed to the
terminal.  Python truthiness on optional ints, optional strings and optional
lists is made explicit.  Option callbacks that live in callbacks.py (a file not
part of the sources) are modelled from the specification and marked as such.
-/

namespace Pynsot

/-! ## Python-value helpers -/

/-- Truthiness of a Python optional int: None and 0 are falsy. -/
def truthyInt : Option Int → Bool
  | none => false
  | some n => decide (n ≠ 0)

/-- Truthiness of a Python optional string: None and the empty string are falsy. -/
def truthyStr : Option String → Bool
  | none => false
  | some s => decide (s ≠ "")

/-- Code-point lexicographic comparison of character lists, as Python compares
strings. -/
def strLeAux : List Char → List Char → Bool
  | [], _ => true
  | _ :: _, [] => false
  | a :: as, b :: bs =>
    decide (a.toNat < b.toNat) || (decide (a.toNat = b.toNat) && strLeAux as bs)

/-- Python string comparison (less or equal). -/
def strLe (a b : String) : Bool := strLeAux a.data b.data

/-- Python tuple comparison on (device, name) pairs: first component first,
ties broken by the second. -/
def pairLeB (a b : Int × String) : Bool :=
  decide (a.1 < b.1) || (a.1 == b.1 && strLe a.2 b.2)

/-- The order used by the Python sorted() call on (device, name) tuples, as a
proposition. -/
def pairLeP (a b : Int × String) : Prop := pairLeB a b = true

instance instDecPairLeP : DecidableRel pairLeP :=
  fun a b => Bool.decEq (pairLeB a b) true

/-! ## Display field tables (cmd_changes.py lines 28-42, cmd_interfaces.py lines 26-46) -/

namespace changes

/-- DISPLAY_FIELDS of cmd_changes.py. -/
def DISPLAY_FIELDS : List (String × String) :=
  [ ("id", "ID"),
    ("change_at", "Change At"),
    ("event", "Event"),
    ("resource_name", "Resource"),
    ("user", "User"),
    ("resource_id", "Obj") ]

/-- VERBOSE_FIELDS of cmd_changes.py: DISPLAY_FIELDS plus the resource data. -/
def VERBOSE_FIELDS : List (String × String) :=
  DISPLAY_FIELDS ++ [("resource", "Data")]

end changes

namespace interfaces

/-- DISPLAY_FIELDS of cmd_interfaces.py. -/
def DISPLAY_FIELDS : List (String × String) :=
  [ ("id", "ID"),
    ("device", "Device"),
    ("name", "Name"),
    ("mac_address", "MAC"),
    ("addresses", "Addresses"),
    ("attributes", "Attributes") ]

/-- VERBOSE_FIELDS of cmd_interfaces.py. -/
def VERBOSE_FIELDS : List (String × String) :=
  [ ("id", "ID"),
    ("device", "Device"),
    ("name", "Name"),
    ("mac_address", "MAC"),
    ("addresses", "Addresses"),
    ("speed", "Speed"),
    ("type", "Type"),
    ("parent_id", "Parent ID"),
    ("attributes", "Attributes") ]

end interfaces

/-! ## Errors raised before any API-client call -/

/-- Errors raised by option callbacks during click parsing (usage errors). -/
inductive CallbackError
  | missingRequiredOption
deriving DecidableEq

/-- Usage errors raised inside a command body before the client call. -/
inductive UsageError
  | missingOptionName
deriving DecidableEq

/-- Errors raised by the attribute transform callback. -/
inductive TransformError
  | invalidFormat
deriving DecidableEq

/-- Modelled from the spec: the process_site_id callback of callbacks.py
(a file absent from the sources).  It fails with MissingRequiredOption when the
value is absent and the command requires a site scope, and otherwise passes the
value through unchanged. -/
def process_site_id (required : Bool) (value : Option String) :
    Except CallbackError (Option String) :=
  if required && value.isNone then .error .missingRequiredOption else .ok value

/-! ## changes list (cmd_changes.py lines 100-119) -/

/-- The parsed options of the changes list command, after callback transforms.
None of these options declares an int type in cmd_changes.py, so all carry
strings. -/
structure ChangesListParams where
  event : Option String
  id : Option String
  limit : Option String
  offset : Option String
  resource_id : Option String
  resource_name : Option String
  site_id : Option String
deriving DecidableEq

/-- A call made on the injected API client ctx.obj by the changes command. -/
inductive ChangesCall
  | list (data : ChangesListParams) (display_fields : List (String × String))
deriving DecidableEq

namespace changes

/-- The body of the changes list command (cmd_changes.py lines 111-119): pick
VERBOSE_FIELDS when id was provided, DISPLAY_FIELDS otherwise, and call
ctx.obj.list with ctx.params and that table. -/
def list_body (p : ChangesListParams) : ChangesCall :=
  let display_fields := if p.id.isSome then VERBOSE_FIELDS else DISPLAY_FIELDS
  ChangesCall.list p display_fields

/-- A full changes list invocation: click runs the option callbacks while
parsing, before the command body; the site-id callback requires a value
(cmd_changes.py line 97), so a missing site id aborts parsing and the body,
hence the client call, never runs. -/
def invoke_list (p : ChangesListParams) : Except CallbackError ChangesCall :=
  match process_site_id true p.site_id with
  | .error e => .error e
  | .ok _ => .ok (list_body p)

end changes

/-! ## interfaces list (cmd_interfaces.py lines 227-264) -/

/-- A parsed record of a bulk-add file: a mapping of field names to values. -/
abbrev BulkRecord := List (String × String)

/-- Values held in ctx.params, tagged by the declared click option type and,
for options with a transforming callback, by the type the callback returns. -/
inductive PValue
  | s : Option String → PValue
  | i : Option Int → PValue
  | b : Bool → PValue
  | multi : List String → PValue
  | attrs : List (String × String) → PValue
  | bulk : Option (List BulkRecord) → PValue
deriving DecidableEq

/-- The parsed options of the interfaces list command, in declaration order
(cmd_interfaces.py lines 122-225). -/
structure InterfacesListParams where
  attributes : List String
  delimited : Bool
  device : Option Int
  description : Option String
  grep : Bool
  id : Option Int
  limit : Option String
  name : Option String
  natural_key : Bool
  offset : Option String
  parent_id : Option Int
  query : Option String
  site_id : Option String
  speed : Option Int
  type : Option Int
deriving DecidableEq

/-- The ctx.params mapping of the interfaces list command, one entry per
declared option. -/
def InterfacesListParams.ctx_params (p : InterfacesListParams) :
    List (String × PValue) :=
  [ ("attributes", PValue.multi p.attributes),
    ("delimited", PValue.b p.delimited),
    ("device", PValue.i p.device),
    ("description", PValue.s p.description),
    ("grep", PValue.b p.grep),
    ("id", PValue.i p.id),
    ("limit", PValue.s p.limit),
    ("name", PValue.s p.name),
    ("natural_key", PValue.b p.natural_key),
    ("offset", PValue.s p.offset),
    ("parent_id", PValue.i p.parent_id),
    ("query", PValue.s p.query),
    ("site_id", PValue.s p.site_id),
    ("speed", PValue.i p.speed),
    ("type", PValue.i p.type) ]

/-- The payload handed to the add verb: either the bulk record list or the
ctx.params mapping of the add command. -/
inductive AddPayload
  | records : List BulkRecord → AddPayload
  | params : List (String × PValue) → AddPayload
deriving DecidableEq

/-- A call made on the injected API client ctx.obj by the interfaces command. -/
inductive InterfacesCall
  | set_query (data : List (String × PValue))
  | list (data : List (String × PValue))
      (display_fields : List (String × String))
      (verbose_fields : List (String × String))
  | add (data : AddPayload)
deriving DecidableEq

namespace interfaces

/-- The payload of the interfaces list command: ctx.params after the
data.pop of the delimited key (cmd_interfaces.py lines 239-240). -/
def list_payload (p : InterfacesListParams) : List (String × PValue) :=
  p.ctx_params.eraseP (fun kv => kv.1 == "delimited")

/-- The display-field selection of cmd_interfaces.py lines 242-246: verbose
when id was given, or when both device and name are truthy. -/
def selectDisplayFields (id device : Option Int) (name : Option String) :
    List (String × String) :=
  if id.isSome || (truthyInt device && truthyStr name) then
    VERBOSE_FIELDS
  else
    DISPLAY_FIELDS

/-- What an interfaces list invocation does: the client calls it makes and the
text it echoes, if any. -/
structure ListOutcome where
  calls : List InterfacesCall
  echoed : Option String
deriving DecidableEq

/-- The body of the interfaces list command (cmd_interfaces.py lines 239-264).
queryResults stands for the records the set-query verb returns, each
contributing its device and name fields; the body only consumes it on the
query branch. -/
def list_body (p : InterfacesListParams) (invoked_subcommand : Option String)
    (queryResults : List (Int × String)) : ListOutcome :=
  let data := list_payload p
  let display_fields := selectDisplayFields p.id p.device p.name
  if invoked_subcommand.isNone then
    if p.query.isSome then
      let sortedIfaces := List.insertionSort pairLeP queryResults
      let keys := sortedIfaces.map (fun o => toString o.1 ++ ":" ++ o.2)
      let joiner := if p.delimited then "," else "\n"
      { calls := [InterfacesCall.set_query data],
        echoed := some (String.intercalate joiner keys) }
    else
      { calls := [InterfacesCall.list data display_fields VERBOSE_FIELDS],
        echoed := none }
  else
    { calls := [], echoed := none }

end interfaces

/-! ## interfaces add (cmd_interfaces.py lines 99-117) -/

/-- The parsed options of the interfaces add command, after callback
transforms: attributes is the mapping built by the attribute transform,
bulk_add the record list parsed from the file (None when no file was given). -/
structure InterfacesAddParams where
  attributes : List (String × String)
  bulk_add : Option (List BulkRecord)
  device : Option Int
  name : Option String
deriving DecidableEq

/-- The ctx.params mapping of the interfaces add command: click stores one
entry per declared option under the parameter name derived from its longest
long flag, holding the value the option callback returned — the transformed
attribute mapping and the parsed bulk record list included. -/
def InterfacesAddParams.ctx_params (p : InterfacesAddParams) :
    List (String × PValue) :=
  [ ("attributes", PValue.attrs p.attributes),
    ("bulk_add", PValue.bulk p.bulk_add),
    ("device", PValue.i p.device),
    ("name", PValue.s p.name) ]

namespace interfaces

/-- The formal parameter names of the add callback signature at
cmd_interfaces.py line 99 (besides ctx, supplied by pass_context): the
signature declares device_id although the option at lines 82-91 binds the
parameter name device. -/
def addSignatureNames : List String := ["attributes", "bulk_add", "device_id", "name"]

/-- The body of the interfaces add command as written (cmd_interfaces.py lines
111-117).  data is the Python expression bulk_add or ctx.params, so an empty
(falsy) bulk list falls back to ctx.params; the name requirement is only
enforced when bulk_add is None.  Dispatch never reaches this body (see
invoke_add): it embeds dead code. -/
def add_body (p : InterfacesAddParams) : Except UsageError (List InterfacesCall) :=
  let data : AddPayload :=
    match p.bulk_add with
    | some (r :: rs) => AddPayload.records (r :: rs)
    | _ => AddPayload.params p.ctx_params
  if p.bulk_add.isNone then
    if p.name.isNone then Except.error UsageError.missingOptionName
    else Except.ok [InterfacesCall.add data]
  else Except.ok [InterfacesCall.add data]

/-- The outcome of a full interfaces add invocation: a TypeError raised by
keyword dispatch, a usage error raised by the body, or the client calls the
body makes. -/
inductive AddOutcome
  | typeError (keyword : String)
  | usageError (e : UsageError)
  | calls (cs : List InterfacesCall)
deriving DecidableEq

/-- A full interfaces add invocation.  After parsing, click invokes the
command callback with ctx.params as keyword arguments; a key that matches no
formal parameter of the callback signature raises TypeError before the body
runs.  The ctx.params key device (bound by the --device option) is not among
the signature names, which declare device_id instead, so every invocation
raises TypeError and lines 111-117 are unreachable. -/
def invoke_add (p : InterfacesAddParams) : AddOutcome :=
  match (p.ctx_params.map Prod.fst).find? (fun k => !(addSignatureNames.contains k)) with
  | some k => AddOutcome.typeError k
  | none =>
    match add_body p with
    | Except.error e => AddOutcome.usageError e
    | Except.ok cs => AddOutcome.calls cs

end interfaces

/-! ## The attribute transform callback, modelled from the specification -/

/-- Split a string at commas, as the Python str.split with a comma argument. -/
def splitCommaAux : List Char → List Char → List String
  | [], acc => [String.mk acc.reverse]
  | c :: cs, acc =>
    if c == ',' then String.mk acc.reverse :: splitCommaAux cs []
    else splitCommaAux cs (c :: acc)

/-- Comma-splitting of one attribute option value. -/
def splitComma (s : String) : List String := splitCommaAux s.data []

/-- Split a character list at the first equals sign, when one occurs. -/
def splitEqFirst : List Char → Option (List Char × List Char)
  | [] => none
  | c :: cs =>
    if c == '=' then some ([], cs)
    else (splitEqFirst cs).map (fun pr => (c :: pr.1, pr.2))

/-- Parse one key=value token; none when the token has no equals sign. -/
def parseAttrToken (t : String) : Option (String × String) :=
  (splitEqFirst t.data).map (fun pr => (String.mk pr.1, String.mk pr.2))

/-- Parse every token, none as soon as one token has no equals sign. -/
def parseAttrTokens : List String → Option (List (String × String))
  | [] => some []
  | t :: ts =>
    match parseAttrToken t, parseAttrTokens ts with
    | some kv, some rest => some (kv :: rest)
    | _, _ => none

/-- Insert a key and value into a Python-dict style association list: the
first entry holding the key is updated in place, a fresh key is appended. -/
def dictInsert : List (String × String) → String → String → List (String × String)
  | [], k, v => [(k, v)]
  | kv :: rest, k, v =>
    if kv.1 == k then (k, v) :: rest else kv :: dictInsert rest k v

/-- Lookup in a Python-dict style association list. -/
def dictLookup : List (String × String) → String → Option String
  | [], _ => none
  | kv :: rest, k => if kv.1 == k then some kv.2 else dictLookup rest k

/-- The first defined of two optional values. -/
def firstSome : Option String → Option String → Option String
  | some v, _ => some v
  | none, b => b

/-- Accumulating loop of the attribute transform. -/
def transformAttrsGo (acc : List (String × String)) :
    List String → Except TransformError (List (String × String))
  | [] => Except.ok acc
  | t :: ts =>
    match parseAttrToken t with
    | none => Except.error TransformError.invalidFormat
    | some kv => transformAttrsGo (dictInsert acc kv.1 kv.2) ts

/-- Modelled from the spec: the transform_attributes callback of callbacks.py
(a file absent from the sources).  It accepts zero or more key=value strings,
splitting each at commas first; it fails with InvalidFormat when a token lacks
an equals sign, and otherwise builds a mapping in which the last occurrence of
a key wins. -/
def transform_attributes (inputs : List String) :
    Except TransformError (List (String × String)) :=
  transformAttrsGo [] (inputs.flatMap splitComma)

instance instDecEqExcept {ε α : Type} [DecidableEq ε] [DecidableEq α] :
    DecidableEq (Except ε α) := fun x y =>
  match x, y with
  | .error a, .error b =>
    if h : a = b then isTrue (by rw [h])
    else isFalse (by intro he; cases he; exact h rfl)
  | .ok a, .ok b =>
    if h : a = b then isTrue (by rw [h])
    else isFalse (by intro he; cases he; exact h rfl)
  | .error _, .ok _ => isFalse (by intro he; cases he)
  | .ok _, .error _ => isFalse (by intro he; cases he)

/-! ## Claim-side definitions -/

/-- The set-query output as claim C2 describes it: the composite keys of the
sorted and de-duplicated records, joined by comma or newline. -/
def claimedQueryOutput (delimited : Bool) (records : List (Int × String)) : String :=
  String.intercalate (if delimited then "," else "\n")
    (((List.insertionSort pairLeP records).map
        (fun o => toString o.1 ++ ":" ++ o.2)).dedup)

/-! ## Concrete inputs used by counterexamples and witnesses -/

/-- An interfaces list option set carrying a query, id absent, not delimited. -/
def pQuery : InterfacesListParams :=
  { attributes := [], delimited := false, device := none, description := none,
    grep := false, id := none, limit := none, name := none,
    natural_key := false, offset := none, parent_id := none,
    query := some "foo=bar", site_id := some "1", speed := none, type := none }

/-- A set-query response holding the same (device, name) record twice. -/
def qrDup : List (Int × String) := [(1, "eth0"), (1, "eth0")]

/-- An interfaces list option set with no query, no id, no device, no name. -/
def pPlain : InterfacesListParams :=
  { attributes := [], delimited := false, device := none, description := none,
    grep := false, id := none, limit := none, name := none,
    natural_key := false, offset := none, parent_id := none,
    query := none, site_id := some "1", speed := none, type := none }

/-- pPlain with an id. -/
def pWithId : InterfacesListParams := { pPlain with id := some 9 }

/-- pPlain with a truthy device and a truthy name, id still absent. -/
def pDevName : InterfacesListParams :=
  { pPlain with device := some 5, name := some "eth0" }

/-- changes list options with an id and a site id. -/
def cpWithId : ChangesListParams :=
  { event := none, id := some "7", limit := none, offset := none,
    resource_id := none, resource_name := none, site_id := some "1" }

/-- changes list options with a site id and no id. -/
def cpNoId : ChangesListParams := { cpWithId with id := none }

/-- changes list options with no site id. -/
def cpNoSite : ChangesListParams := { cpWithId with site_id := none }

/-- interfaces add options with an empty bulk record list. -/
def aEmptyBulk : InterfacesAddParams :=
  { attributes := [], bulk_add := some [], device := some 3, name := none }

/-- interfaces add options with no bulk file and no name. -/
def aNoBulkNoName : InterfacesAddParams :=
  { attributes := [], bulk_add := none, device := some 3, name := none }

/-- interfaces add options with a one-record bulk list and no name. -/
def aBulkNoName : InterfacesAddParams :=
  { attributes := [], bulk_add := some [[("device", "3"), ("name", "eth0")]],
    device := none, name := none }

/-! ## Order facts about the sort comparator -/

instance instTotalPairLeP : IsTotal (Int × String) pairLeP := by
  constructor
  have auxTotal : ∀ a b : List Char, strLeAux a b = true ∨ strLeAux b a = true := by
    intro a
    induction a with
    | nil => intro b; exact Or.inl rfl
    | cons x xs ih =>
      intro b
      cases b with
      | nil => exact Or.inr rfl
      | cons y ys =>
        simp only [strLeAux, Bool.or_eq_true, Bool.and_eq_true, decide_eq_true_eq]
        rcases Nat.lt_trichotomy x.toNat y.toNat with h | h | h
        · exact Or.inl (Or.inl h)
        · rcases ih ys with h2 | h2
          · exact Or.inl (Or.inr ⟨h, h2⟩)
          · exact Or.inr (Or.inr ⟨h.symm, h2⟩)
        · exact Or.inr (Or.inl h)
  intro a b
  simp only [pairLeP, pairLeB, strLe, Bool.or_eq_true, Bool.and_eq_true,
    decide_eq_true_eq, beq_iff_eq]
  rcases lt_trichotomy a.1 b.1 with h | h | h
  · exact Or.inl (Or.inl h)
  · rcases auxTotal a.2.data b.2.data with h2 | h2
    · exact Or.inl (Or.inr ⟨h, h2⟩)
    · exact Or.inr (Or.inr ⟨h.symm, h2⟩)
  · exact Or.inr (Or.inl h)

instance instTransPairLeP : IsTrans (Int × String) pairLeP := by
  constructor
  have auxTrans : ∀ a b c : List Char, strLeAux a b = true → strLeAux b c = true →
      strLeAux a c = true := by
    intro a
    induction a with
    | nil => intro b c _ _; rfl
    | cons x xs ih =>
      intro b c hab hbc
      cases b with
      | nil => simp [strLeAux] at hab
      | cons y ys =>
        cases c with
        | nil => simp [strLeAux] at hbc
        | cons z zs =>
          simp only [strLeAux, Bool.or_eq_true, Bool.and_eq_true,
            decide_eq_true_eq] at hab hbc ⊢
          rcases hab with h1 | ⟨h1, h1r⟩ <;> rcases hbc with h2 | ⟨h2, h2r⟩
          · exact Or.inl (by omega)
          · exact Or.inl (by omega)
          · exact Or.inl (by omega)
          · exact Or.inr ⟨by omega, ih ys zs h1r h2r⟩
  intro a b c hab hbc
  simp only [pairLeP, pairLeB, strLe, Bool.or_eq_true, Bool.and_eq_true,
    decide_eq_true_eq, beq_iff_eq] at hab hbc ⊢
  rcases hab with h1 | ⟨h1, h1r⟩ <;> rcases hbc with h2 | ⟨h2, h2r⟩
  · exact Or.inl (by omega)
  · exact Or.inl (by omega)
  · exact Or.inl (by omega)
  · exact Or.inr ⟨by omega, auxTrans _ _ _ h1r h2r⟩

/-! ## Helper lemmas for the attribute transform -/

/-- A token without an equals sign anywhere in the token list makes the
transform loop fail, whatever has been accumulated. -/
theorem transformAttrsGo_err (ts : List String) (acc : List (String × String))
    (h : ∃ t ∈ ts, parseAttrToken t = none) :
    transformAttrsGo acc ts = Except.error TransformError.invalidFormat := by
  induction ts generalizing acc with
  | nil => simp at h
  | cons t ts ih =>
    rcases h with ⟨u, hu, hup⟩
    rcases List.mem_cons.mp hu with rfl | hu2
    · simp [transformAttrsGo, hup]
    · cases hp : parseAttrToken t with
      | none => simp [transformAttrsGo, hp]
      | some kv =>
        simp only [transformAttrsGo, hp]
        exact ih (dictInsert acc kv.1 kv.2) ⟨u, hu2, hup⟩

/-- When every token parses, the transform loop folds the parsed pairs into
the accumulator with dictInsert. -/
theorem transformAttrsGo_ok (ts : List String) (acc : List (String × String))
    (pairs : List (String × String)) (h : parseAttrTokens ts = some pairs) :
    transformAttrsGo acc ts =
      Except.ok (pairs.foldl (fun m kv => dictInsert m kv.1 kv.2) acc) := by
  induction ts generalizing acc pairs with
  | nil =>
    simp only [parseAttrTokens, Option.some.injEq] at h
    subst h
    rfl
  | cons t ts ih =>
    simp only [parseAttrTokens] at h
    cases hp : parseAttrToken t with
    | none => simp [hp] at h
    | some kv =>
      cases hr : parseAttrTokens ts with
      | none => simp [hp, hr] at h
      | some rest =>
        simp only [hp, hr, Option.some.injEq] at h
        subst h
        simp only [transformAttrsGo, hp, List.foldl_cons]
        exact ih (dictInsert acc kv.1 kv.2) rest hr

/-- Looking up after a dict insert: the inserted key now holds the new value,
every other key is unaffected. -/
theorem dictLookup_insert (m : List (String × String)) (k v k' : String) :
    dictLookup (dictInsert m k v) k' =
      if k == k' then some v else dictLookup m k' := by
  induction m with
  | nil => rfl
  | cons kv0 m ih =>
    by_cases h0 : kv0.1 = k
    · subst h0
      simp only [dictInsert, beq_self_eq_true, if_pos]
      by_cases hk : kv0.1 = k'
      · subst hk
        simp [dictLookup]
      · simp [dictLookup, hk, beq_iff_eq]
    · simp only [dictInsert, beq_iff_eq, h0, if_neg, ite_false]
      by_cases h1 : kv0.1 = k'
      · subst h1
        have hk : k ≠ kv0.1 := fun he => h0 he.symm
        simp [dictLookup, beq_iff_eq, hk]
      · simp [dictLookup, beq_iff_eq, h1, ih]

/-- dictLookup over an append takes the first list when it holds the key. -/
theorem dictLookup_append (l1 l2 : List (String × String)) (k : String) :
    dictLookup (l1 ++ l2) k = firstSome (dictLookup l1 k) (dictLookup l2 k) := by
  induction l1 with
  | nil => rfl
  | cons kv l ih =>
    simp only [List.cons_append, dictLookup]
    by_cases h : kv.1 == k
    · simp [h, firstSome]
    · simp [h, ih]

/-- Folding dictInsert over a pair list: a key maps to its last occurrence in
the pair list, and to its accumulator binding when the pair list misses it. -/
theorem dictLookup_foldl (ps : List (String × String))
    (acc : List (String × String)) (k : String) :
    dictLookup (ps.foldl (fun m kv => dictInsert m kv.1 kv.2) acc) k =
      firstSome (dictLookup ps.reverse k) (dictLookup acc k) := by
  induction ps generalizing acc with
  | nil => rfl
  | cons p ps ih =>
    simp only [List.foldl_cons, List.reverse_cons]
    rw [ih, dictLookup_append, dictLookup_insert]
    cases dictLookup ps.reverse k with
    | some v => rfl
    | none =>
      by_cases h : p.1 = k
      · subst h
        simp [dictLookup, firstSome]
      · simp [dictLookup, firstSome, beq_iff_eq, h, fun he : k = p.1 => h he.symm]

/-! ## Claim theorems -/

/-- C1 counterexample: the claim says that whenever the id option is absent the
summary table is passed to the renderer, for every list-type command; but the
interfaces list command with id absent yet a truthy device and name passes the
verbose table. -/
theorem C1_counterexample_id_absent_verbose :
    pDevName.id = none ∧
    (interfaces.list_body pDevName none []).calls =
      [InterfacesCall.list (interfaces.list_payload pDevName)
        interfaces.VERBOSE_FIELDS interfaces.VERBOSE_FIELDS] ∧
    interfaces.VERBOSE_FIELDS ≠ interfaces.DISPLAY_FIELDS := by
  decide

/-- C1 amended: with the id option present the verbose table is passed to the
renderer in both list commands; with id absent the summary table is passed,
except that interfaces list passes the verbose table when both the device and
the name options are truthy. -/
theorem C1_amended_display_table_selection :
    (∀ p : ChangesListParams, p.id.isSome = true →
      changes.list_body p = ChangesCall.list p changes.VERBOSE_FIELDS) ∧
    (∀ p : ChangesListParams, p.id = none →
      changes.list_body p = ChangesCall.list p changes.DISPLAY_FIELDS) ∧
    (∀ (p : InterfacesListParams) (qr : List (Int × String)),
      p.query = none → p.id.isSome = true →
      (interfaces.list_body p none qr).calls =
        [InterfacesCall.list (interfaces.list_payload p)
          interfaces.VERBOSE_FIELDS interfaces.VERBOSE_FIELDS]) ∧
    (∀ (p : InterfacesListParams) (qr : List (Int × String)),
      p.query = none → p.id = none →
      (truthyInt p.device && truthyStr p.name) = false →
      (interfaces.list_body p none qr).calls =
        [InterfacesCall.list (interfaces.list_payload p)
          interfaces.DISPLAY_FIELDS interfaces.VERBOSE_FIELDS]) ∧
    (∀ (p : InterfacesListParams) (qr : List (Int × String)),
      p.query = none → p.id = none →
      (truthyInt p.device && truthyStr p.name) = true →
      (interfaces.list_body p none qr).calls =
        [InterfacesCall.list (interfaces.list_payload p)
          interfaces.VERBOSE_FIELDS interfaces.VERBOSE_FIELDS]) := by
  refine ⟨?_, ?_, ?_, ?_, ?_⟩
  · intro p h; simp [changes.list_body, h]
  · intro p h; simp [changes.list_body, h]
  · intro p qr hq hid
    simp [interfaces.list_body, interfaces.selectDisplayFields, hq, hid]
  · intro p qr hq hid hdn
    simp [interfaces.list_body, interfaces.selectDisplayFields, hq, hid, hdn]
  · intro p qr hq hid hdn
    simp [interfaces.list_body, interfaces.selectDisplayFields, hq, hid, hdn]

/-- C1 witness: the amended selection rule applied at concrete inputs. -/
theorem C1_witness_display_table_selection :
    changes.list_body cpWithId = ChangesCall.list cpWithId changes.VERBOSE_FIELDS ∧
    changes.list_body cpNoId = ChangesCall.list cpNoId changes.DISPLAY_FIELDS ∧
    (interfaces.list_body pWithId none []).calls =
      [InterfacesCall.list (interfaces.list_payload pWithId)
        interfaces.VERBOSE_FIELDS interfaces.VERBOSE_FIELDS] ∧
    (interfaces.list_body pPlain none []).calls =
      [InterfacesCall.list (interfaces.list_payload pPlain)
        interfaces.DISPLAY_FIELDS interfaces.VERBOSE_FIELDS] ∧
    (interfaces.list_body pDevName none []).calls =
      [InterfacesCall.list (interfaces.list_payload pDevName)
        interfaces.VERBOSE_FIELDS interfaces.VERBOSE_FIELDS] :=
  ⟨C1_amended_display_table_selection.1 cpWithId rfl,
   C1_amended_display_table_selection.2.1 cpNoId rfl,
   C1_amended_display_table_selection.2.2.1 pWithId [] rfl rfl,
   C1_amended_display_table_selection.2.2.2.1 pPlain [] rfl rfl rfl,
   C1_amended_display_table_selection.2.2.2.2 pDevName [] rfl rfl rfl⟩

/-- C2 counterexample: the claim says the set-query output is de-duplicated;
on a response holding the same record twice the command echoes the key twice,
not the de-duplicated text the claim describes. -/
theorem C2_counterexample_no_dedup :
    (interfaces.list_body pQuery none qrDup).echoed = some "1:eth0\n1:eth0" ∧
    claimedQueryOutput pQuery.delimited qrDup = "1:eth0" ∧
    (interfaces.list_body pQuery none qrDup).echoed ≠
      some (claimedQueryOutput pQuery.delimited qrDup) := by
  decide

/-- C2 amended: with a query present, interfaces list calls only the set-query
verb and echoes the device:name composite keys of the returned records sorted
by (device, name) with duplicates retained, joined by commas when delimited is
set and by newlines otherwise. -/
theorem C2_amended_query_output_sorted (p : InterfacesListParams)
    (qr : List (Int × String)) (hq : p.query.isSome = true) :
    ∃ s : List (Int × String), List.Perm s qr ∧ List.Sorted pairLeP s ∧
      (interfaces.list_body p none qr).calls =
        [InterfacesCall.set_query (interfaces.list_payload p)] ∧
      (interfaces.list_body p none qr).echoed =
        some (String.intercalate (if p.delimited then "," else "\n")
          (s.map (fun o => toString o.1 ++ ":" ++ o.2))) := by
  refine ⟨List.insertionSort pairLeP qr, List.perm_insertionSort pairLeP qr,
    List.sorted_insertionSort pairLeP qr, ?_, ?_⟩ <;>
    simp [interfaces.list_body, hq]

/-- C2 witness: the amended statement applied to a concrete query invocation. -/
theorem C2_witness_query_output_sorted :
    ∃ s : List (Int × String), List.Perm s qrDup ∧ List.Sorted pairLeP s ∧
      (interfaces.list_body pQuery none qrDup).calls =
        [InterfacesCall.set_query (interfaces.list_payload pQuery)] ∧
      (interfaces.list_body pQuery none qrDup).echoed =
        some (String.intercalate (if pQuery.delimited then "," else "\n")
          (s.map (fun o => toString o.1 ++ ":" ++ o.2))) :=
  C2_amended_query_output_sorted pQuery qrDup rfl

/-- C3 counterexample: the claim says that with an empty parsed bulk sequence
the add verb is still invoked and receives that empty sequence; in fact the
invocation dies at keyword dispatch with a TypeError on the device keyword,
so the add verb is never invoked and receives nothing. -/
theorem C3_counterexample_empty_bulk_payload :
    interfaces.invoke_add aEmptyBulk = interfaces.AddOutcome.typeError "device" ∧
    interfaces.invoke_add aEmptyBulk ≠
      interfaces.AddOutcome.calls [InterfacesCall.add (AddPayload.records [])] := by
  decide

/-- C3 amended: for interfaces add with a bulk file whose parsed record
sequence is empty - as for every interfaces add invocation - click keyword
dispatch raises TypeError on the device keyword, the callback signature
declaring device_id where the option binds device, and the add verb is never
invoked. -/
theorem C3_amended_dispatch_type_error (p : InterfacesAddParams)
    (_h : p.bulk_add = some []) :
    interfaces.invoke_add p = interfaces.AddOutcome.typeError "device" := rfl

/-- C3 witness: the amended statement at the concrete empty-bulk input. -/
theorem C3_witness_empty_bulk :
    interfaces.invoke_add aEmptyBulk = interfaces.AddOutcome.typeError "device" :=
  C3_amended_dispatch_type_error aEmptyBulk rfl

/-- C4: a changes list invocation without a site id fails with the missing
required option usage error during option parsing, so the API client is never
reached (its call would only appear in an ok outcome). -/
theorem C4_changes_list_requires_site_id (p : ChangesListParams)
    (h : p.site_id = none) :
    changes.invoke_list p = Except.error CallbackError.missingRequiredOption := by
  simp [changes.invoke_list, process_site_id, h]

/-- C4 witness: the site-id requirement at a concrete option set. -/
theorem C4_witness_changes_list_requires_site_id :
    changes.invoke_list cpNoSite = Except.error CallbackError.missingRequiredOption :=
  C4_changes_list_requires_site_id cpNoSite rfl

/-- C5 code bug: the claim describes lines 111-117 of cmd_interfaces.py, but
those lines are dead code.  The callback signature at line 99 declares
device_id while the --device option binds the parameter name device, so click
keyword dispatch raises TypeError on every interfaces add invocation: with no
bulk file and no name no click usage error is raised, and with a non-empty
bulk list the add verb is still never called.  The body as written would
implement exactly what the claim states. -/
theorem C5_add_dispatch_dead_code :
    interfaces.invoke_add aNoBulkNoName = interfaces.AddOutcome.typeError "device" ∧
    interfaces.invoke_add aBulkNoName = interfaces.AddOutcome.typeError "device" ∧
    interfaces.add_body aNoBulkNoName = Except.error UsageError.missingOptionName ∧
    interfaces.add_body aBulkNoName =
      Except.ok [InterfacesCall.add
        (AddPayload.records [[("device", "3"), ("name", "eth0")]])] := by
  decide

/-- C6: an interfaces list invocation without a sub-command makes exactly one
client call: the set-query verb when the query option is present, the list
verb when it is absent. -/
theorem C6_exactly_one_verb (p : InterfacesListParams)
    (qr : List (Int × String)) :
    (interfaces.list_body p none qr).calls.length = 1 ∧
    (p.query.isSome = true →
      (interfaces.list_body p none qr).calls =
        [InterfacesCall.set_query (interfaces.list_payload p)]) ∧
    (p.query = none →
      (interfaces.list_body p none qr).calls =
        [InterfacesCall.list (interfaces.list_payload p)
          (interfaces.selectDisplayFields p.id p.device p.name)
          interfaces.VERBOSE_FIELDS]) := by
  refine ⟨?_, ?_, ?_⟩
  · cases hq : p.query <;> simp [interfaces.list_body, hq]
  · intro hq; simp [interfaces.list_body, hq]
  · intro hq; simp [interfaces.list_body, hq]

/-- C6 witness: one verb per invocation at concrete inputs, query present and
query absent. -/
theorem C6_witness_exactly_one_verb :
    (interfaces.list_body pQuery none qrDup).calls =
      [InterfacesCall.set_query (interfaces.list_payload pQuery)] ∧
    (interfaces.list_body pPlain none []).calls =
      [InterfacesCall.list (interfaces.list_payload pPlain)
        (interfaces.selectDisplayFields pPlain.id pPlain.device pPlain.name)
        interfaces.VERBOSE_FIELDS] :=
  ⟨(C6_exactly_one_verb pQuery qrDup).2.1 rfl,
   (C6_exactly_one_verb pPlain []).2.2 rfl⟩

/-- C7: interfaces list with id absent, a non-zero device and a non-empty name
selects the verbose display-field table. -/
theorem C7_device_and_name_select_verbose (device : Int) (name : String)
    (hd : device ≠ 0) (hn : name ≠ "") :
    interfaces.selectDisplayFields none (some device) (some name) =
      interfaces.VERBOSE_FIELDS := by
  simp [interfaces.selectDisplayFields, truthyInt, truthyStr, hd, hn]

/-- C7 witness: the verbose selection at device 5 and name eth0. -/
theorem C7_witness_device_and_name_select_verbose :
    interfaces.selectDisplayFields none (some 5) (some "eth0") =
      interfaces.VERBOSE_FIELDS :=
  C7_device_and_name_select_verbose 5 "eth0" (by decide) (by decide)

/-- C8: the interfaces list payload is the ctx.params mapping with exactly the
delimited key removed; every other entry, the grep and natural-key display
toggles included, passes through unchanged and in order. -/
theorem C8_payload_strips_only_delimited (p : InterfacesListParams) :
    interfaces.list_payload p =
      (InterfacesListParams.ctx_params p).eraseP (fun kv => kv.1 == "delimited") ∧
    (InterfacesListParams.ctx_params p).filter (fun kv => kv.1 != "delimited") =
      interfaces.list_payload p ∧
    (interfaces.list_payload p).filter (fun kv => kv.1 == "delimited") = [] ∧
    ("grep", PValue.b p.grep) ∈ interfaces.list_payload p ∧
    ("natural_key", PValue.b p.natural_key) ∈ interfaces.list_payload p := by
  refine ⟨rfl, ?_, ?_, ?_, ?_⟩ <;>
    simp [interfaces.list_payload, InterfacesListParams.ctx_params,
      List.eraseP, List.filter]

/-- C9: the attribute transform fails with the invalid-format error whenever a
comma-separated token lacks an equals sign, and when every token parses it
returns a mapping in which each key holds the value of its last occurrence. -/
theorem C9_transform_attributes_contract (inputs : List String) :
    ((∃ t ∈ inputs.flatMap splitComma, parseAttrToken t = none) →
      transform_attributes inputs = Except.error TransformError.invalidFormat) ∧
    (∀ pairs : List (String × String),
      parseAttrTokens (inputs.flatMap splitComma) = some pairs →
      ∃ m, transform_attributes inputs = Except.ok m ∧
        ∀ k, dictLookup m k = dictLookup pairs.reverse k) := by
  constructor
  · intro h
    exact transformAttrsGo_err _ [] h
  · intro pairs h
    refine ⟨pairs.foldl (fun m kv => dictInsert m kv.1 kv.2) [], ?_, ?_⟩
    · exact transformAttrsGo_ok _ [] pairs h
    · intro k
      rw [dictLookup_foldl]
      cases dictLookup pairs.reverse k <;> rfl

/-- C9 witness: a token without an equals sign errors; duplicate keys keep the
last value at a concrete input. -/
theorem C9_witness_transform_attributes_contract :
    transform_attributes ["x"] = Except.error TransformError.invalidFormat ∧
    (∃ m, transform_attributes ["a=1,b=2", "a=3"] = Except.ok m ∧
      ∀ k, dictLookup m k =
        dictLookup ([("a", "1"), ("b", "2"), ("a", "3")]).reverse k) :=
  ⟨(C9_transform_attributes_contract ["x"]).1 ⟨"x", by decide, by decide⟩,
   (C9_transform_attributes_contract ["a=1,b=2", "a=3"]).2
     [("a", "1"), ("b", "2"), ("a", "3")] (by decide)⟩

/-- C10: for both resource types the summary display-field table is a
subsequence of the verbose table, pairs and order included. -/
theorem C10_summary_sublist_of_verbose :
    List.Sublist changes.DISPLAY_FIELDS changes.VERBOSE_FIELDS ∧
    List.Sublist interfaces.DISPLAY_FIELDS interfaces.VERBOSE_FIELDS := by
  decide

end Pynsot
